import Mathlib

/-!
Verification of the analytical inverse-kinematics solver for a 3-DOF hexapod
leg (`ik_solver.cpp`).  The C++ code works on `double`; we embed it over the
real numbers: `sqrt` is `Real.sqrt`, `acos` is `Real.arccos`, and the C
library function `atan2` is modelled by its standard mathematical branch
definition in terms of `Real.arctan`.  The fallible operation `solve_ik`
(which throws `std::runtime_error` in C++) is embedded as a function into
`Except UnreachableError JointAngles`, with the two error messages of the
source distinguished as `TooFar` and `TooClose`.
-/

namespace IK

/-- Struct for 3D position (`Position3D` in the source). -/
@[ext]
structure Position3D where
  x : ℝ
  y : ℝ
  z : ℝ

/-- Struct for joint angles in degrees (`JointAngles` in the source). -/
structure JointAngles where
  coxa : ℝ
  femur : ℝ
  tibia : ℝ

/-- Struct for leg dimensions (`LegDimensions` in the source). -/
structure LegDimensions where
  coxa_length : ℝ
  femur_length : ℝ
  tibia_length : ℝ

/-- The two unreachable-target failures "too far" and "too close" thrown by
`solve_ik` in the source. -/
inductive UnreachableError where
  | TooFar
  | TooClose
deriving DecidableEq

/-- Convert degrees to radians (`deg_to_rad` in the source). -/
noncomputable def deg_to_rad (degrees : ℝ) : ℝ :=
  degrees * Real.pi / 180

/-- Convert radians to degrees (`rad_to_deg` in the source). -/
noncomputable def rad_to_deg (radians : ℝ) : ℝ :=
  radians * 180 / Real.pi

/-- Clamp angle to valid servo range (`clamp_angle` in the source; the source
declares default bounds 0 and 180 and every call site uses them). -/
noncomputable def clamp_angle (angle_deg min_deg max_deg : ℝ) : ℝ :=
  max min_deg (min max_deg angle_deg)

/-- Mathematical model of the C library function `atan2(y, x)`: the angle of
the point `(x, y)` in `(-pi, pi]`, with `atan2 0 0 = 0`. -/
noncomputable def atan2 (y x : ℝ) : ℝ :=
  if 0 < x then Real.arctan (y / x)
  else if x < 0 then
    (if 0 ≤ y then Real.arctan (y / x) + Real.pi
     else Real.arctan (y / x) - Real.pi)
  else
    (if 0 < y then Real.pi / 2
     else if y < 0 then -(Real.pi / 2)
     else 0)

/-- Distance from the coxa joint to the target in the XY plane
(`xy_distance` in `solve_ik`). -/
noncomputable def xy_distance (target : Position3D) : ℝ :=
  Real.sqrt (target.x * target.x + target.y * target.y)

/-- Horizontal distance from the femur base to the target: the source's
`femur_base_distance`, aliased as `horizontal_reach` in `solve_ik`. -/
noncomputable def horizontal_reach (target : Position3D) (dimensions : LegDimensions) : ℝ :=
  xy_distance target - dimensions.coxa_length

/-- Vertical component of the reach (`vertical_reach` in `solve_ik`). -/
def vertical_reach (target : Position3D) : ℝ :=
  target.z

/-- Distance from femur base to target foot (`reach_distance` in `solve_ik`). -/
noncomputable def reach_distance (target : Position3D) (dimensions : LegDimensions) : ℝ :=
  Real.sqrt (horizontal_reach target dimensions * horizontal_reach target dimensions +
    vertical_reach target * vertical_reach target)

/-- Maximum spannable reach of the femur+tibia chain (`max_reach` in `solve_ik`). -/
def max_reach (dimensions : LegDimensions) : ℝ :=
  dimensions.femur_length + dimensions.tibia_length

/-- Minimum spannable reach of the femur+tibia chain (`min_reach` in `solve_ik`). -/
def min_reach (dimensions : LegDimensions) : ℝ :=
  |dimensions.femur_length - dimensions.tibia_length|

/-- Law-of-cosines value for the tibia interior angle (`cos_tibia` in
`solve_ik`, before the clamp to `[-1, 1]`). -/
noncomputable def cos_tibia (target : Position3D) (dimensions : LegDimensions) : ℝ :=
  (dimensions.femur_length * dimensions.femur_length +
    dimensions.tibia_length * dimensions.tibia_length -
    reach_distance target dimensions * reach_distance target dimensions) /
  (2 * dimensions.femur_length * dimensions.tibia_length)

/-- Tibia interior angle in radians (`tibia_angle_rad` in `solve_ik`): `acos`
of `cos_tibia` clamped to `[-1, 1]` exactly as the source does with
`std::max(-1.0, std::min(1.0, cos_tibia))`. -/
noncomputable def tibia_angle_rad (target : Position3D) (dimensions : LegDimensions) : ℝ :=
  Real.arccos (max (-1) (min 1 (cos_tibia target dimensions)))

/-- Elevation angle from the femur base to the target (`reach_angle` in
`solve_ik`). -/
noncomputable def reach_angle (target : Position3D) (dimensions : LegDimensions) : ℝ :=
  atan2 (vertical_reach target) (horizontal_reach target dimensions)

/-- Law-of-cosines value for the angle between femur and reach line
(`cos_femur_offset` in `solve_ik`, before the clamp to `[-1, 1]`). -/
noncomputable def cos_femur_offset (target : Position3D) (dimensions : LegDimensions) : ℝ :=
  (dimensions.femur_length * dimensions.femur_length +
    reach_distance target dimensions * reach_distance target dimensions -
    dimensions.tibia_length * dimensions.tibia_length) /
  (2 * dimensions.femur_length * reach_distance target dimensions)

/-- Angle between the femur segment and the reach line (`femur_offset_angle`
in `solve_ik`), with the same clamp-before-`acos` as the source. -/
noncomputable def femur_offset_angle (target : Position3D) (dimensions : LegDimensions) : ℝ :=
  Real.arccos (max (-1) (min 1 (cos_femur_offset target dimensions)))

/-- Femur angle in radians (`femur_angle_rad` in `solve_ik`). -/
noncomputable def femur_angle_rad (target : Position3D) (dimensions : LegDimensions) : ℝ :=
  reach_angle target dimensions + femur_offset_angle target dimensions

/-- Solve inverse kinematics for a single leg (`solve_ik` in the source).
Returns joint angles in degrees, or the unreachable error the source throws.
The three returned angles are exactly the source's final assignments:
`clamp_angle(rad_to_deg(coxa_angle_rad) + 90)`,
`clamp_angle(rad_to_deg(femur_angle_rad) + 90)` and
`clamp_angle(180 - rad_to_deg(tibia_angle_rad))`. -/
noncomputable def solve_ik (target : Position3D) (dimensions : LegDimensions) :
    Except UnreachableError JointAngles :=
  if max_reach dimensions < reach_distance target dimensions then
    Except.error UnreachableError.TooFar
  else if reach_distance target dimensions < min_reach dimensions then
    Except.error UnreachableError.TooClose
  else
    Except.ok
      { coxa := clamp_angle (rad_to_deg (atan2 target.y target.x) + 90) 0 180
        femur := clamp_angle (rad_to_deg (femur_angle_rad target dimensions) + 90) 0 180
        tibia := clamp_angle (180 - rad_to_deg (tibia_angle_rad target dimensions)) 0 180 }

/-- Forward kinematics (`solve_fk` in the source): foot position from joint
angles in degrees. -/
noncomputable def solve_fk (angles : JointAngles) (dimensions : LegDimensions) : Position3D :=
  let coxa_rad := deg_to_rad (angles.coxa - 90)
  let femur_rad := deg_to_rad (angles.femur - 90)
  let tibia_interior_rad := deg_to_rad (180 - angles.tibia)
  let coxa_x := dimensions.coxa_length * Real.cos coxa_rad
  let coxa_y := dimensions.coxa_length * Real.sin coxa_rad
  let femur_horizontal := dimensions.femur_length * Real.cos femur_rad
  let femur_vertical := dimensions.femur_length * Real.sin femur_rad
  let tibia_abs_angle := femur_rad + tibia_interior_rad - Real.pi
  let tibia_horizontal := dimensions.tibia_length * Real.cos tibia_abs_angle
  let tibia_vertical := dimensions.tibia_length * Real.sin tibia_abs_angle
  let total_horizontal := femur_horizontal + tibia_horizontal
  { x := coxa_x + total_horizontal * Real.cos coxa_rad
    y := coxa_y + total_horizontal * Real.sin coxa_rad
    z := femur_vertical + tibia_vertical }

/-- Validate whether a position is reachable (`is_reachable` in the source):
attempt `solve_ik`, catching the unreachable error. -/
noncomputable def is_reachable (target : Position3D) (dimensions : LegDimensions) : Bool :=
  match solve_ik target dimensions with
  | Except.ok _ => true
  | Except.error _ => false

/-- Argument handed to `sqrt` inside `max_reach_at_height`; the source takes
its square root without any domain guard. -/
def max_reach_sqrt_arg (z_height : ℝ) (dimensions : LegDimensions) : ℝ :=
  (dimensions.femur_length + dimensions.tibia_length) *
    (dimensions.femur_length + dimensions.tibia_length) -
  z_height * z_height

/-- Workspace boundary (`max_reach_at_height` in the source): maximum
horizontal reach at a given height.  The source has no error branch; it
returns `sqrt(max_leg_length² - z_height²) + coxa_length` unconditionally
(when the argument of `sqrt` is negative the C `sqrt` produces NaN, which the
source leaks to the caller; `Real.sqrt` of a negative number is `0`). -/
noncomputable def max_reach_at_height (z_height : ℝ) (dimensions : LegDimensions) : ℝ :=
  Real.sqrt (max_reach_sqrt_arg z_height dimensions) + dimensions.coxa_length

/-! ### Basic lemmas about the embedded primitives -/

theorem clamp_angle_nonneg (x : ℝ) : 0 ≤ clamp_angle x 0 180 :=
  le_max_left 0 _

theorem clamp_angle_le_180 (x : ℝ) : clamp_angle x 0 180 ≤ 180 :=
  max_le (by norm_num) (min_le_left _ _)

theorem clamp_angle_eq_self {x : ℝ} (h1 : 0 ≤ x) (h2 : x ≤ 180) :
    clamp_angle x 0 180 = x := by
  unfold clamp_angle
  rw [min_eq_right h2, max_eq_right h1]

theorem deg_to_rad_rad_to_deg (θ : ℝ) : deg_to_rad (rad_to_deg θ) = θ := by
  unfold deg_to_rad rad_to_deg
  field_simp

theorem rad_to_deg_pi : rad_to_deg Real.pi = 180 := by
  unfold rad_to_deg
  field_simp

/-- Clamping a value already inside `[-1, 1]` is the identity. -/
theorem clamp_unit_eq_self {c : ℝ} (h1 : -1 ≤ c) (h2 : c ≤ 1) :
    max (-1) (min 1 c) = c := by
  rw [min_eq_right h2, max_eq_right h1]

/-- Polar decomposition of `atan2`: the point `(x, y)` lies at angle
`atan2 y x` and radius `sqrt (x² + y²)`.  This models the defining property
of the C library `atan2`, and holds for every input including the origin. -/
theorem atan2_polar (y x : ℝ) :
    Real.sqrt (x * x + y * y) * Real.cos (atan2 y x) = x ∧
    Real.sqrt (x * x + y * y) * Real.sin (atan2 y x) = y := by
  rcases lt_trichotomy 0 x with hx | hx | hx
  · -- branch x > 0 of atan2
    have hxx : (0:ℝ) < x * x + y * y := by nlinarith
    have hρ : 0 < Real.sqrt (x * x + y * y) := Real.sqrt_pos.mpr hxx
    have hquot : (1 : ℝ) + (y / x) ^ 2 = (x * x + y * y) / x ^ 2 := by
      field_simp
      ring
    have hsq : Real.sqrt (1 + (y / x) ^ 2) = Real.sqrt (x * x + y * y) / x := by
      rw [hquot, Real.sqrt_div hxx.le, Real.sqrt_sq hx.le]
    unfold atan2
    rw [if_pos hx, Real.cos_arctan, Real.sin_arctan, hsq]
    constructor
    · field_simp
    · field_simp
  · -- branch x = 0 of atan2
    subst hx
    have h0 : ¬ (0:ℝ) < 0 := lt_irrefl 0
    unfold atan2
    rw [if_neg h0, if_neg h0]
    rcases lt_trichotomy 0 y with hy | hy | hy
    · rw [if_pos hy]
      constructor
      · simp [Real.cos_pi_div_two]
      · have : (0:ℝ) * 0 + y * y = y * y := by ring
        rw [this, Real.sin_pi_div_two, Real.sqrt_mul_self hy.le, mul_one]
    · subst hy
      norm_num
    · rw [if_neg (by linarith), if_pos hy]
      constructor
      · simp [Real.cos_pi_div_two]
      · have h1 : (0:ℝ) * 0 + y * y = (-y) * (-y) := by ring
        rw [h1, Real.sin_neg, Real.sin_pi_div_two, Real.sqrt_mul_self (by linarith)]
        ring
  · -- branch x < 0 of atan2
    have hxx : (0:ℝ) < x * x + y * y := by nlinarith
    have hρ : 0 < Real.sqrt (x * x + y * y) := Real.sqrt_pos.mpr hxx
    have hquot : (1 : ℝ) + (y / x) ^ 2 = (x * x + y * y) / x ^ 2 := by
      have hx0 : x ≠ 0 := ne_of_lt hx
      field_simp
      ring
    have hsq : Real.sqrt (1 + (y / x) ^ 2) = Real.sqrt (x * x + y * y) / (-x) := by
      rw [hquot, Real.sqrt_div hxx.le, Real.sqrt_sq_eq_abs, abs_of_neg hx]
    have hcos : Real.cos (atan2 y x) = -Real.cos (Real.arctan (y / x)) := by
      unfold atan2
      rw [if_neg (by linarith), if_pos hx]
      rcases le_or_lt 0 y with hy | hy
      · rw [if_pos hy, Real.cos_add_pi]
      · rw [if_neg (by linarith), Real.cos_sub_pi]
    have hsin : Real.sin (atan2 y x) = -Real.sin (Real.arctan (y / x)) := by
      unfold atan2
      rw [if_neg (by linarith), if_pos hx]
      rcases le_or_lt 0 y with hy | hy
      · rw [if_pos hy, Real.sin_add_pi]
      · rw [if_neg (by linarith), Real.sin_sub_pi]
    rw [hcos, hsin, Real.cos_arctan, Real.sin_arctan, hsq]
    have hx0 : x ≠ 0 := ne_of_lt hx
    constructor
    · field_simp
    · field_simp
      ring

/-! ### Triangle geometry behind the law-of-cosines steps -/

/-- Bounds for the femur-offset cosine: when `|f - t| ≤ r ≤ f + t`, the value
`(f² + r² - t²)/(2fr)` lies in `[-1, 1]`. -/
theorem cosA_bounds (f t r : ℝ) (hf : 0 < f) (ht : 0 < t) (hr : 0 < r)
    (hmax : r ≤ f + t) (hmin : |f - t| ≤ r) :
    -1 ≤ (f * f + r * r - t * t) / (2 * f * r) ∧
    (f * f + r * r - t * t) / (2 * f * r) ≤ 1 := by
  obtain ⟨hmin1, hmin2⟩ := abs_le.mp hmin
  have hfr : (0:ℝ) < 2 * f * r := by positivity
  constructor
  · rw [le_div_iff₀ hfr]
    nlinarith [mul_nonneg (by linarith : (0:ℝ) ≤ f + r - t) (by linarith : (0:ℝ) ≤ f + r + t)]
  · rw [div_le_one hfr]
    nlinarith [mul_nonneg (by linarith : (0:ℝ) ≤ t - f + r) (by linarith : (0:ℝ) ≤ t + f - r)]

/-- Bounds for the tibia-interior cosine: when `|f - t| ≤ r ≤ f + t`, the
value `(f² + t² - r²)/(2ft)` lies in `[-1, 1]`. -/
theorem cosB_bounds (f t r : ℝ) (hf : 0 < f) (ht : 0 < t) (hr : 0 < r)
    (hmax : r ≤ f + t) (hmin : |f - t| ≤ r) :
    -1 ≤ (f * f + t * t - r * r) / (2 * f * t) ∧
    (f * f + t * t - r * r) / (2 * f * t) ≤ 1 := by
  obtain ⟨hmin1, hmin2⟩ := abs_le.mp hmin
  have hft : (0:ℝ) < 2 * f * t := by positivity
  constructor
  · rw [le_div_iff₀ hft]
    nlinarith [mul_nonneg (by linarith : (0:ℝ) ≤ f + t - r) (by linarith : (0:ℝ) ≤ f + t + r)]
  · rw [div_le_one hft]
    nlinarith [mul_nonneg (by linarith : (0:ℝ) ≤ r - f + t) (by linarith : (0:ℝ) ≤ r + f - t)]

/-- Closure of the two-link chain: with femur offset `β = arccos((f²+r²-t²)/(2fr))`
against the reach line and interior knee angle `φ = arccos((f²+t²-r²)/(2ft))`, a
link of length `f` at angle `β` followed by a link of length `t` at angle
`β + φ - π` lands exactly at distance `r` along the baseline. -/
theorem two_link_chain (f t r : ℝ) (hf : 0 < f) (ht : 0 < t) (hr : 0 < r)
    (hmax : r ≤ f + t) (hmin : |f - t| ≤ r) :
    f * Real.cos (Real.arccos ((f * f + r * r - t * t) / (2 * f * r))) -
      t * Real.cos (Real.arccos ((f * f + r * r - t * t) / (2 * f * r)) +
        Real.arccos ((f * f + t * t - r * r) / (2 * f * t))) = r ∧
    f * Real.sin (Real.arccos ((f * f + r * r - t * t) / (2 * f * r))) -
      t * Real.sin (Real.arccos ((f * f + r * r - t * t) / (2 * f * r)) +
        Real.arccos ((f * f + t * t - r * r) / (2 * f * t))) = 0 := by
  obtain ⟨hmin1, hmin2⟩ := abs_le.mp hmin
  obtain ⟨hA2, hA1⟩ := cosA_bounds f t r hf ht hr hmax hmin
  obtain ⟨hB2, hB1⟩ := cosB_bounds f t r hf ht hr hmax hmin
  have hfr : (0:ℝ) < 2 * f * r := by positivity
  have hft : (0:ℝ) < 2 * f * t := by positivity
  set A := (f * f + r * r - t * t) / (2 * f * r) with hA
  set B := (f * f + t * t - r * r) / (2 * f * t) with hB
  set S := 2*f^2*t^2 + 2*f^2*r^2 + 2*t^2*r^2 - f^4 - t^4 - r^4 with hSdef
  have hS : 0 ≤ S := by
    rw [hSdef]
    nlinarith [mul_nonneg
      (mul_nonneg (by linarith : (0:ℝ) ≤ f + t - r) (by linarith : (0:ℝ) ≤ f + t + r))
      (mul_nonneg (by linarith : (0:ℝ) ≤ r - f + t) (by linarith : (0:ℝ) ≤ r + f - t))]
  have hcosA : Real.cos (Real.arccos A) = A := Real.cos_arccos hA2 hA1
  have hcosB : Real.cos (Real.arccos B) = B := Real.cos_arccos hB2 hB1
  have hsinA : Real.sin (Real.arccos A) = Real.sqrt S / (2 * f * r) := by
    rw [Real.sin_arccos]
    have h1 : 1 - A ^ 2 = S / (2 * f * r) ^ 2 := by
      rw [hA, hSdef]
      field_simp
      ring
    rw [h1, Real.sqrt_div hS _, Real.sqrt_sq hfr.le]
  have hsinB : Real.sin (Real.arccos B) = Real.sqrt S / (2 * f * t) := by
    rw [Real.sin_arccos]
    have h1 : 1 - B ^ 2 = S / (2 * f * t) ^ 2 := by
      rw [hB, hSdef]
      field_simp
      ring
    rw [h1, Real.sqrt_div hS _, Real.sqrt_sq hft.le]
  constructor
  · rw [Real.cos_add, hcosA, hcosB, hsinA, hsinB]
    have hprod : Real.sqrt S / (2 * f * r) * (Real.sqrt S / (2 * f * t)) =
        S / (2 * f * r * (2 * f * t)) := by
      rw [div_mul_div_comm, Real.mul_self_sqrt hS]
    rw [hprod, hA, hB, hSdef]
    field_simp
    ring
  · rw [Real.sin_add, hcosA, hcosB, hsinA, hsinB, hA, hB]
    field_simp
    ring

/-- Rotating the closed two-link chain by the elevation angle `γ`. -/
theorem chain_rotated (f t r γ β φ : ℝ)
    (h1 : f * Real.cos β - t * Real.cos (β + φ) = r)
    (h2 : f * Real.sin β - t * Real.sin (β + φ) = 0) :
    f * Real.cos (γ + β) + t * Real.cos (γ + β + φ - Real.pi) = r * Real.cos γ ∧
    f * Real.sin (γ + β) + t * Real.sin (γ + β + φ - Real.pi) = r * Real.sin γ := by
  have e : γ + β + φ = γ + (β + φ) := by ring
  rw [Real.cos_sub_pi, Real.sin_sub_pi, e]
  simp only [Real.cos_add, Real.sin_add] at h1 h2 ⊢
  constructor
  · linear_combination Real.cos γ * h1 - Real.sin γ * h2
  · linear_combination Real.sin γ * h1 + Real.cos γ * h2

/-! ### The exact round trip of solve_fk after solve_ik -/

/-- Exact round trip: when `solve_ik` succeeds, the leg chain is non-degenerate
(`reach_distance > 0`), and none of the three final servo clamps alters the
solved angle (each pre-clamp angle already lies in `[0, 180]`), then
`solve_fk` maps the returned angles back to the target exactly. -/
theorem solve_fk_solve_ik_exact (target : Position3D) (dims : LegDimensions) (a : JointAngles)
    (hf : 0 < dims.femur_length) (ht : 0 < dims.tibia_length)
    (hrpos : 0 < reach_distance target dims)
    (hok : solve_ik target dims = Except.ok a)
    (hc1 : 0 ≤ rad_to_deg (atan2 target.y target.x) + 90)
    (hc2 : rad_to_deg (atan2 target.y target.x) + 90 ≤ 180)
    (hg1 : 0 ≤ rad_to_deg (femur_angle_rad target dims) + 90)
    (hg2 : rad_to_deg (femur_angle_rad target dims) + 90 ≤ 180)
    (ht1 : 0 ≤ 180 - rad_to_deg (tibia_angle_rad target dims))
    (ht2 : 180 - rad_to_deg (tibia_angle_rad target dims) ≤ 180) :
    solve_fk a dims = target := by
  unfold solve_ik at hok
  split_ifs at hok with hfar hclose
  have hmax : reach_distance target dims ≤ dims.femur_length + dims.tibia_length := by
    simpa [max_reach] using not_lt.mp hfar
  have hminr : |dims.femur_length - dims.tibia_length| ≤ reach_distance target dims := by
    simpa [min_reach] using not_lt.mp hclose
  rw [Except.ok.injEq] at hok
  subst hok
  have hbA := cosA_bounds dims.femur_length dims.tibia_length (reach_distance target dims)
    hf ht hrpos hmax hminr
  have hbB := cosB_bounds dims.femur_length dims.tibia_length (reach_distance target dims)
    hf ht hrpos hmax hminr
  have hfoa : femur_offset_angle target dims = Real.arccos
      ((dims.femur_length * dims.femur_length +
        reach_distance target dims * reach_distance target dims -
        dims.tibia_length * dims.tibia_length) /
       (2 * dims.femur_length * reach_distance target dims)) := by
    unfold femur_offset_angle cos_femur_offset
    rw [clamp_unit_eq_self hbA.1 hbA.2]
  have htia : tibia_angle_rad target dims = Real.arccos
      ((dims.femur_length * dims.femur_length +
        dims.tibia_length * dims.tibia_length -
        reach_distance target dims * reach_distance target dims) /
       (2 * dims.femur_length * dims.tibia_length)) := by
    unfold tibia_angle_rad cos_tibia
    rw [clamp_unit_eq_self hbB.1 hbB.2]
  have chain := two_link_chain dims.femur_length dims.tibia_length
    (reach_distance target dims) hf ht hrpos hmax hminr
  have rot := chain_rotated dims.femur_length dims.tibia_length
    (reach_distance target dims) (reach_angle target dims) _ _ chain.1 chain.2
  have ecoxa : deg_to_rad (clamp_angle (rad_to_deg (atan2 target.y target.x) + 90) 0 180 - 90)
      = atan2 target.y target.x := by
    rw [clamp_angle_eq_self hc1 hc2]
    have e : rad_to_deg (atan2 target.y target.x) + 90 - 90
        = rad_to_deg (atan2 target.y target.x) := by ring
    rw [e, deg_to_rad_rad_to_deg]
  have efemur : deg_to_rad (clamp_angle (rad_to_deg (femur_angle_rad target dims) + 90) 0 180 - 90)
      = femur_angle_rad target dims := by
    rw [clamp_angle_eq_self hg1 hg2]
    have e : rad_to_deg (femur_angle_rad target dims) + 90 - 90
        = rad_to_deg (femur_angle_rad target dims) := by ring
    rw [e, deg_to_rad_rad_to_deg]
  have etibia : deg_to_rad (180 - clamp_angle (180 - rad_to_deg (tibia_angle_rad target dims)) 0 180)
      = tibia_angle_rad target dims := by
    rw [clamp_angle_eq_self ht1 ht2]
    have e : 180 - (180 - rad_to_deg (tibia_angle_rad target dims))
        = rad_to_deg (tibia_angle_rad target dims) := by ring
    rw [e, deg_to_rad_rad_to_deg]
  have hrd : reach_distance target dims = Real.sqrt
      (horizontal_reach target dims * horizontal_reach target dims + target.z * target.z) := rfl
  have hpol2 := atan2_polar target.z (horizontal_reach target dims)
  rw [← hrd] at hpol2
  have hga : reach_angle target dims = atan2 target.z (horizontal_reach target dims) := rfl
  have hpol1 := atan2_polar target.y target.x
  have hxy : xy_distance target = Real.sqrt (target.x * target.x + target.y * target.y) := rfl
  rw [← hxy] at hpol1
  have hM : femur_angle_rad target dims
      = reach_angle target dims + femur_offset_angle target dims := rfl
  have hhr : horizontal_reach target dims = xy_distance target - dims.coxa_length := rfl
  ext
  · show dims.coxa_length * Real.cos (deg_to_rad (clamp_angle
        (rad_to_deg (atan2 target.y target.x) + 90) 0 180 - 90)) +
      (dims.femur_length * Real.cos (deg_to_rad (clamp_angle
        (rad_to_deg (femur_angle_rad target dims) + 90) 0 180 - 90)) +
       dims.tibia_length * Real.cos (deg_to_rad (clamp_angle
        (rad_to_deg (femur_angle_rad target dims) + 90) 0 180 - 90) +
        deg_to_rad (180 - clamp_angle (180 - rad_to_deg (tibia_angle_rad target dims)) 0 180) -
        Real.pi)) *
      Real.cos (deg_to_rad (clamp_angle
        (rad_to_deg (atan2 target.y target.x) + 90) 0 180 - 90)) = target.x
    rw [ecoxa, efemur, etibia, hM, hfoa, htia, rot.1, hga, hpol2.1, hhr]
    linear_combination hpol1.1
  · show dims.coxa_length * Real.sin (deg_to_rad (clamp_angle
        (rad_to_deg (atan2 target.y target.x) + 90) 0 180 - 90)) +
      (dims.femur_length * Real.cos (deg_to_rad (clamp_angle
        (rad_to_deg (femur_angle_rad target dims) + 90) 0 180 - 90)) +
       dims.tibia_length * Real.cos (deg_to_rad (clamp_angle
        (rad_to_deg (femur_angle_rad target dims) + 90) 0 180 - 90) +
        deg_to_rad (180 - clamp_angle (180 - rad_to_deg (tibia_angle_rad target dims)) 0 180) -
        Real.pi)) *
      Real.sin (deg_to_rad (clamp_angle
        (rad_to_deg (atan2 target.y target.x) + 90) 0 180 - 90)) = target.y
    rw [ecoxa, efemur, etibia, hM, hfoa, htia, rot.1, hga, hpol2.1, hhr]
    linear_combination hpol1.2
  · show dims.femur_length * Real.sin (deg_to_rad (clamp_angle
        (rad_to_deg (femur_angle_rad target dims) + 90) 0 180 - 90)) +
      dims.tibia_length * Real.sin (deg_to_rad (clamp_angle
        (rad_to_deg (femur_angle_rad target dims) + 90) 0 180 - 90) +
        deg_to_rad (180 - clamp_angle (180 - rad_to_deg (tibia_angle_rad target dims)) 0 180) -
        Real.pi) = target.z
    rw [efemur, etibia, hM, hfoa, htia, rot.2, hga]
    exact hpol2.2

/-! ### Generic consequences of the final servo clamp -/

/-- Every successful `solve_ik` result has all three angles inside `[0, 180]`,
because each returned field is a `clamp_angle _ 0 180`. -/
theorem solve_ik_ok_bounds (target : Position3D) (dims : LegDimensions) (a : JointAngles)
    (h : solve_ik target dims = Except.ok a) :
    0 ≤ a.coxa ∧ a.coxa ≤ 180 ∧ 0 ≤ a.femur ∧ a.femur ≤ 180 ∧
    0 ≤ a.tibia ∧ a.tibia ≤ 180 := by
  unfold solve_ik at h
  split_ifs at h
  rw [Except.ok.injEq] at h
  subst h
  exact ⟨clamp_angle_nonneg _, clamp_angle_le_180 _, clamp_angle_nonneg _,
    clamp_angle_le_180 _, clamp_angle_nonneg _, clamp_angle_le_180 _⟩

/-! ### Concrete evaluations used as witnesses -/

theorem rad_to_deg_zero : rad_to_deg 0 = 0 := by
  unfold rad_to_deg
  simp

theorem atan2_zero_of_pos {x : ℝ} (hx : 0 < x) : atan2 0 x = 0 := by
  unfold atan2
  rw [if_pos hx]
  simp

theorem sqrt_self_sq {a : ℝ} (h : 0 ≤ a) : Real.sqrt (a * a + 0 * 0) = a := by
  have e : a * a + 0 * 0 = a * a := by ring
  rw [e, Real.sqrt_mul_self h]

/-- Reach distance of the boundary target `(130, 0, 0)` for dims 30/50/50. -/
theorem reach_130 : reach_distance ⟨130, 0, 0⟩ ⟨30, 50, 50⟩ = 100 := by
  have exy : xy_distance ⟨130, 0, 0⟩ = 130 := by
    show Real.sqrt ((130:ℝ) * 130 + 0 * 0) = 130
    exact sqrt_self_sq (by norm_num)
  have ehr : horizontal_reach ⟨130, 0, 0⟩ ⟨30, 50, 50⟩ = 100 := by
    unfold horizontal_reach
    rw [exy]
    norm_num
  unfold reach_distance
  rw [ehr]
  exact sqrt_self_sq (by norm_num)

/-- Elevation angle of the boundary target is zero. -/
theorem reach_angle_130 : reach_angle ⟨130, 0, 0⟩ ⟨30, 50, 50⟩ = 0 := by
  have ehr : horizontal_reach ⟨130, 0, 0⟩ ⟨30, 50, 50⟩ = 100 := by
    have exy : xy_distance ⟨130, 0, 0⟩ = 130 := by
      show Real.sqrt ((130:ℝ) * 130 + 0 * 0) = 130
      exact sqrt_self_sq (by norm_num)
    unfold horizontal_reach
    rw [exy]
    norm_num
  unfold reach_angle
  rw [ehr]
  exact atan2_zero_of_pos (by norm_num)

/-- Femur angle of the fully stretched boundary configuration is zero. -/
theorem femur_angle_130 : femur_angle_rad ⟨130, 0, 0⟩ ⟨30, 50, 50⟩ = 0 := by
  have hoff : femur_offset_angle ⟨130, 0, 0⟩ ⟨30, 50, 50⟩ = 0 := by
    unfold femur_offset_angle cos_femur_offset
    rw [reach_130]
    have e : ((⟨30, 50, 50⟩:LegDimensions).femur_length * (⟨30, 50, 50⟩:LegDimensions).femur_length +
        (100:ℝ) * 100 - (⟨30, 50, 50⟩:LegDimensions).tibia_length *
        (⟨30, 50, 50⟩:LegDimensions).tibia_length) /
        (2 * (⟨30, 50, 50⟩:LegDimensions).femur_length * 100) = 1 := by
      norm_num
    rw [e, min_self, max_eq_right (by norm_num : (-1:ℝ) ≤ 1), Real.arccos_one]
  unfold femur_angle_rad
  rw [reach_angle_130, hoff]
  norm_num

/-- Tibia interior angle of the fully stretched boundary configuration is `π`. -/
theorem tibia_angle_130 : tibia_angle_rad ⟨130, 0, 0⟩ ⟨30, 50, 50⟩ = Real.pi := by
  unfold tibia_angle_rad cos_tibia
  rw [reach_130]
  have e : ((⟨30, 50, 50⟩:LegDimensions).femur_length * (⟨30, 50, 50⟩:LegDimensions).femur_length +
      (⟨30, 50, 50⟩:LegDimensions).tibia_length * (⟨30, 50, 50⟩:LegDimensions).tibia_length -
      (100:ℝ) * 100) /
      (2 * (⟨30, 50, 50⟩:LegDimensions).femur_length * (⟨30, 50, 50⟩:LegDimensions).tibia_length)
      = -1 := by
    norm_num
  rw [e, min_eq_right (by norm_num : (-1:ℝ) ≤ 1), max_self, Real.arccos_neg_one]

/-- Full evaluation of `solve_ik` at the boundary target: dims 30/50/50 with
target `(130, 0, 0)` is exactly at maximum reach and succeeds with angles
`(90, 90, 0)`. -/
theorem solve_ik_130 : solve_ik ⟨130, 0, 0⟩ ⟨30, 50, 50⟩ = Except.ok ⟨90, 90, 0⟩ := by
  unfold solve_ik
  rw [reach_130]
  rw [if_neg (by norm_num [max_reach] : ¬(max_reach (⟨30, 50, 50⟩:LegDimensions) < (100:ℝ))),
    if_neg (by norm_num [min_reach] : ¬((100:ℝ) < min_reach (⟨30, 50, 50⟩:LegDimensions)))]
  rw [Except.ok.injEq, JointAngles.mk.injEq]
  refine ⟨?_, ?_, ?_⟩
  · show clamp_angle (rad_to_deg (atan2 0 130) + 90) 0 180 = 90
    rw [atan2_zero_of_pos (by norm_num : (0:ℝ) < 130), rad_to_deg_zero,
      show (0:ℝ) + 90 = 90 from by norm_num]
    exact clamp_angle_eq_self (by norm_num) (by norm_num)
  · rw [femur_angle_130, rad_to_deg_zero, show (0:ℝ) + 90 = 90 from by norm_num]
    exact clamp_angle_eq_self (by norm_num) (by norm_num)
  · rw [tibia_angle_130, rad_to_deg_pi, show (180:ℝ) - 180 = 0 from by norm_num]
    exact clamp_angle_eq_self (by norm_num) (by norm_num)

/-- Reach distance of the spec's concrete scenario target `(100, 0, 0)` for
dims 20/60/80. -/
theorem reach_100 : reach_distance ⟨100, 0, 0⟩ ⟨20, 60, 80⟩ = 80 := by
  have exy : xy_distance ⟨100, 0, 0⟩ = 100 := by
    show Real.sqrt ((100:ℝ) * 100 + 0 * 0) = 100
    exact sqrt_self_sq (by norm_num)
  have ehr : horizontal_reach ⟨100, 0, 0⟩ ⟨20, 60, 80⟩ = 80 := by
    unfold horizontal_reach
    rw [exy]
    norm_num
  unfold reach_distance
  rw [ehr]
  exact sqrt_self_sq (by norm_num)

theorem min_reach_206080 : min_reach ⟨20, 60, 80⟩ = 20 := by
  unfold min_reach
  rw [show (⟨20, 60, 80⟩:LegDimensions).femur_length -
      (⟨20, 60, 80⟩:LegDimensions).tibia_length = (-20:ℝ) from by norm_num,
    abs_of_neg (by norm_num : (-20:ℝ) < 0)]
  norm_num

/-- Evaluation of `solve_ik` at the spec's concrete scenario: it succeeds and
the coxa angle is exactly 90 degrees. -/
theorem solve_ik_100 : solve_ik ⟨100, 0, 0⟩ ⟨20, 60, 80⟩ = Except.ok
    { coxa := 90
      femur := clamp_angle (rad_to_deg (femur_angle_rad ⟨100, 0, 0⟩ ⟨20, 60, 80⟩) + 90) 0 180
      tibia := clamp_angle (180 - rad_to_deg (tibia_angle_rad ⟨100, 0, 0⟩ ⟨20, 60, 80⟩)) 0 180 } := by
  unfold solve_ik
  rw [reach_100]
  rw [if_neg (by norm_num [max_reach] : ¬(max_reach (⟨20, 60, 80⟩:LegDimensions) < (80:ℝ))),
    if_neg (by rw [min_reach_206080]; norm_num : ¬((80:ℝ) < min_reach (⟨20, 60, 80⟩:LegDimensions)))]
  rw [Except.ok.injEq, JointAngles.mk.injEq]
  refine ⟨?_, rfl, rfl⟩
  show clamp_angle (rad_to_deg (atan2 0 100) + 90) 0 180 = 90
  rw [atan2_zero_of_pos (by norm_num : (0:ℝ) < 100), rad_to_deg_zero,
    show (0:ℝ) + 90 = 90 from by norm_num]
  exact clamp_angle_eq_self (by norm_num) (by norm_num)

/-! ### Componentwise description of solve_fk and boundedness helpers -/

theorem solve_fk_x (angles : JointAngles) (dims : LegDimensions) :
    (solve_fk angles dims).x =
      dims.coxa_length * Real.cos (deg_to_rad (angles.coxa - 90)) +
      (dims.femur_length * Real.cos (deg_to_rad (angles.femur - 90)) +
       dims.tibia_length * Real.cos (deg_to_rad (angles.femur - 90) +
         deg_to_rad (180 - angles.tibia) - Real.pi)) *
      Real.cos (deg_to_rad (angles.coxa - 90)) := rfl

theorem solve_fk_y (angles : JointAngles) (dims : LegDimensions) :
    (solve_fk angles dims).y =
      dims.coxa_length * Real.sin (deg_to_rad (angles.coxa - 90)) +
      (dims.femur_length * Real.cos (deg_to_rad (angles.femur - 90)) +
       dims.tibia_length * Real.cos (deg_to_rad (angles.femur - 90) +
         deg_to_rad (180 - angles.tibia) - Real.pi)) *
      Real.sin (deg_to_rad (angles.coxa - 90)) := rfl

theorem solve_fk_z (angles : JointAngles) (dims : LegDimensions) :
    (solve_fk angles dims).z =
      dims.femur_length * Real.sin (deg_to_rad (angles.femur - 90)) +
      dims.tibia_length * Real.sin (deg_to_rad (angles.femur - 90) +
        deg_to_rad (180 - angles.tibia) - Real.pi) := rfl

theorem abs_mul_cos_le (a θ : ℝ) : |a * Real.cos θ| ≤ |a| := by
  rw [abs_mul]
  calc |a| * |Real.cos θ| ≤ |a| * 1 :=
        mul_le_mul_of_nonneg_left (Real.abs_cos_le_one θ) (abs_nonneg a)
    _ = |a| := mul_one _

theorem abs_mul_sin_le (a θ : ℝ) : |a * Real.sin θ| ≤ |a| := by
  rw [abs_mul]
  calc |a| * |Real.sin θ| ≤ |a| * 1 :=
        mul_le_mul_of_nonneg_left (Real.abs_sin_le_one θ) (abs_nonneg a)
    _ = |a| := mul_one _

/-! ### Claim theorems -/

/-- Claim C2: for positive femur and tibia lengths, `solve_ik` fails with
`TooFar` exactly when the reach distance strictly exceeds
`femur_length + tibia_length`, fails with `TooClose` exactly when the reach
distance is strictly below `|femur_length - tibia_length|`, and succeeds for
a target whose reach distance equals the maximum reach exactly. -/
theorem solve_ik_error_characterization (target : Position3D) (dims : LegDimensions)
    (hf : 0 < dims.femur_length) (ht : 0 < dims.tibia_length) :
    (solve_ik target dims = Except.error UnreachableError.TooFar ↔
      max_reach dims < reach_distance target dims) ∧
    (solve_ik target dims = Except.error UnreachableError.TooClose ↔
      reach_distance target dims < min_reach dims) ∧
    (reach_distance target dims = max_reach dims →
      ∃ a, solve_ik target dims = Except.ok a) := by
  have hminmax : min_reach dims ≤ max_reach dims := by
    unfold min_reach max_reach
    rw [abs_le]
    exact ⟨by linarith, by linarith⟩
  unfold solve_ik
  refine ⟨?_, ?_, ?_⟩
  · split_ifs with h1 h2
    · simp [h1]
    · simp [h1]
    · simp [h1]
  · split_ifs with h1 h2
    · simp only [Except.error.injEq]
      apply iff_of_false
      · intro h
        exact UnreachableError.noConfusion h
      · intro h
        linarith [hminmax]
    · simp [h2]
    · simp [h2]
  · intro heq
    split_ifs with h1 h2
    · rw [heq] at h1
      exact absurd h1 (lt_irrefl _)
    · rw [heq] at h2
      exact absurd h2 (by linarith [hminmax])
    · exact ⟨_, rfl⟩

/-- Witness for claim C2 at the boundary target `(130, 0, 0)` with dims
30/50/50. -/
theorem solve_ik_error_characterization_witness :
    (0:ℝ) < 50 ∧
    ((solve_ik ⟨130, 0, 0⟩ ⟨30, 50, 50⟩ = Except.error UnreachableError.TooFar ↔
        max_reach ⟨30, 50, 50⟩ < reach_distance ⟨130, 0, 0⟩ ⟨30, 50, 50⟩) ∧
     (solve_ik ⟨130, 0, 0⟩ ⟨30, 50, 50⟩ = Except.error UnreachableError.TooClose ↔
        reach_distance ⟨130, 0, 0⟩ ⟨30, 50, 50⟩ < min_reach ⟨30, 50, 50⟩) ∧
     (reach_distance ⟨130, 0, 0⟩ ⟨30, 50, 50⟩ = max_reach ⟨30, 50, 50⟩ →
        ∃ a, solve_ik ⟨130, 0, 0⟩ ⟨30, 50, 50⟩ = Except.ok a)) :=
  ⟨by norm_num,
    solve_ik_error_characterization ⟨130, 0, 0⟩ ⟨30, 50, 50⟩ (by norm_num) (by norm_num)⟩

/-- Claim C3: whenever `solve_ik` returns successfully, each of the three
returned angles lies in the closed interval `[0, 180]` degrees. -/
theorem solve_ik_angles_in_servo_range (target : Position3D) (dims : LegDimensions)
    (a : JointAngles) (h : solve_ik target dims = Except.ok a) :
    0 ≤ a.coxa ∧ a.coxa ≤ 180 ∧ 0 ≤ a.femur ∧ a.femur ≤ 180 ∧
    0 ≤ a.tibia ∧ a.tibia ≤ 180 :=
  solve_ik_ok_bounds target dims a h

/-- Witness for claim C3 at the boundary target, whose solved angles are
`(90, 90, 0)`. -/
theorem solve_ik_angles_in_servo_range_witness :
    solve_ik ⟨130, 0, 0⟩ ⟨30, 50, 50⟩ = Except.ok ⟨90, 90, 0⟩ ∧
    ((0:ℝ) ≤ 90 ∧ (90:ℝ) ≤ 180 ∧ (0:ℝ) ≤ 90 ∧ (90:ℝ) ≤ 180 ∧
     (0:ℝ) ≤ 0 ∧ (0:ℝ) ≤ 180) :=
  ⟨solve_ik_130,
    solve_ik_angles_in_servo_range ⟨130, 0, 0⟩ ⟨30, 50, 50⟩ ⟨90, 90, 0⟩ solve_ik_130⟩

/-- Claim C6: `is_reachable` returns `true` exactly when `solve_ik` succeeds,
returns `false` exactly when `solve_ik` fails with an `UnreachableError` of
either kind, and is total (being a Lean function into `Bool`, one of the two
cases always holds). -/
theorem is_reachable_spec (target : Position3D) (dims : LegDimensions) :
    (is_reachable target dims = true ↔ ∃ a, solve_ik target dims = Except.ok a) ∧
    (is_reachable target dims = false ↔ ∃ e, solve_ik target dims = Except.error e) := by
  unfold is_reachable
  rcases h : solve_ik target dims with e | a
  · constructor
    · simp
    · simp
  · constructor
    · simp
    · simp

/-- Claim C4 (code bug): for `|z_height| > femur_length + tibia_length` the
source's `max_reach_at_height` does not raise any domain error — it has no
error branch at all.  At `z_height = 101` with dims 30/50/50 the argument
handed to `sqrt` is `-201 < 0` (so the C `sqrt` produces NaN, which the
source silently leaks); in the real-number embedding, where `Real.sqrt` of a
negative number is `0`, the function still returns a plain value
(`0 + coxa_length = 30`) rather than an error. -/
theorem max_reach_at_height_no_domain_guard :
    max_reach_sqrt_arg 101 ⟨30, 50, 50⟩ < 0 ∧
    max_reach_at_height 101 ⟨30, 50, 50⟩ = 30 := by
  constructor
  · unfold max_reach_sqrt_arg
    norm_num
  · unfold max_reach_at_height
    rw [Real.sqrt_eq_zero'.mpr (by unfold max_reach_sqrt_arg; norm_num)]
    norm_num

/-- Claim C5: within the domain `|z| ≤ femur_length + tibia_length`, the
workspace query equals `sqrt((femur+tibia)² - z²) + coxa`, equals
`femur + tibia + coxa` at height 0, and strictly decreases as `|z|`
increases toward the extension limit. -/
theorem max_reach_at_height_spec (dims : LegDimensions)
    (hf : 0 < dims.femur_length) (ht : 0 < dims.tibia_length) :
    (∀ z : ℝ, |z| ≤ dims.femur_length + dims.tibia_length →
      max_reach_at_height z dims =
        Real.sqrt ((dims.femur_length + dims.tibia_length) ^ 2 - z ^ 2) +
          dims.coxa_length) ∧
    max_reach_at_height 0 dims =
      dims.femur_length + dims.tibia_length + dims.coxa_length ∧
    (∀ z1 z2 : ℝ, |z1| < |z2| → |z2| ≤ dims.femur_length + dims.tibia_length →
      max_reach_at_height z2 dims < max_reach_at_height z1 dims) := by
  refine ⟨?_, ?_, ?_⟩
  · intro z hz
    unfold max_reach_at_height max_reach_sqrt_arg
    congr 2
    ring
  · unfold max_reach_at_height max_reach_sqrt_arg
    rw [show (dims.femur_length + dims.tibia_length) *
        (dims.femur_length + dims.tibia_length) - (0:ℝ) * 0 =
        (dims.femur_length + dims.tibia_length) *
        (dims.femur_length + dims.tibia_length) from by ring,
      Real.sqrt_mul_self (by linarith)]
  · intro z1 z2 h12 h2
    unfold max_reach_at_height max_reach_sqrt_arg
    have e2 : z2 * z2 ≤ (dims.femur_length + dims.tibia_length) *
        (dims.femur_length + dims.tibia_length) := by
      have := mul_le_mul h2 h2 (abs_nonneg z2) (by linarith)
      rw [abs_mul_abs_self] at this
      linarith
    have e1 : z1 * z1 < z2 * z2 := by
      have := mul_self_lt_mul_self (abs_nonneg z1) h12
      rw [abs_mul_abs_self, abs_mul_abs_self] at this
      exact this
    have key := Real.sqrt_lt_sqrt
      (x := (dims.femur_length + dims.tibia_length) *
        (dims.femur_length + dims.tibia_length) - z2 * z2)
      (y := (dims.femur_length + dims.tibia_length) *
        (dims.femur_length + dims.tibia_length) - z1 * z1)
      (by linarith) (by linarith)
    linarith

/-- Witness for claim C5 with dims 30/50/50 at heights 0 and 60. -/
theorem max_reach_at_height_spec_witness :
    (0:ℝ) < 50 ∧
    max_reach_at_height 0 ⟨30, 50, 50⟩ = 130 ∧
    max_reach_at_height 60 ⟨30, 50, 50⟩ < max_reach_at_height 0 ⟨30, 50, 50⟩ := by
  have h := max_reach_at_height_spec ⟨30, 50, 50⟩ (by norm_num) (by norm_num)
  refine ⟨by norm_num, ?_, ?_⟩
  · rw [h.2.1]
    norm_num
  · exact h.2.2 0 60
      (by rw [abs_zero, abs_of_pos (by norm_num : (0:ℝ) < 60)]; norm_num)
      (by rw [abs_of_pos (by norm_num : (0:ℝ) < 60)]; norm_num)

/-- Claim C7: `solve_fk` is total — it is a plain function into `Position3D`
built from everywhere-defined trigonometric operations, and for every angle
triple and every dims its output coordinates are finite, bounded by the total
leg length. -/
theorem solve_fk_total_bounded (angles : JointAngles) (dims : LegDimensions) :
    |(solve_fk angles dims).x| ≤
      |dims.coxa_length| + |dims.femur_length| + |dims.tibia_length| ∧
    |(solve_fk angles dims).y| ≤
      |dims.coxa_length| + |dims.femur_length| + |dims.tibia_length| ∧
    |(solve_fk angles dims).z| ≤ |dims.femur_length| + |dims.tibia_length| := by
  refine ⟨?_, ?_, ?_⟩
  · rw [solve_fk_x]
    have h1 : |dims.femur_length * Real.cos (deg_to_rad (angles.femur - 90)) +
        dims.tibia_length * Real.cos (deg_to_rad (angles.femur - 90) +
          deg_to_rad (180 - angles.tibia) - Real.pi)| ≤
        |dims.femur_length| + |dims.tibia_length| :=
      le_trans (abs_add _ _) (add_le_add (abs_mul_cos_le _ _) (abs_mul_cos_le _ _))
    have h2 := abs_mul_cos_le dims.coxa_length (deg_to_rad (angles.coxa - 90))
    have h3 := abs_mul_cos_le (dims.femur_length * Real.cos (deg_to_rad (angles.femur - 90)) +
        dims.tibia_length * Real.cos (deg_to_rad (angles.femur - 90) +
          deg_to_rad (180 - angles.tibia) - Real.pi)) (deg_to_rad (angles.coxa - 90))
    have h4 := abs_add (dims.coxa_length * Real.cos (deg_to_rad (angles.coxa - 90)))
      ((dims.femur_length * Real.cos (deg_to_rad (angles.femur - 90)) +
        dims.tibia_length * Real.cos (deg_to_rad (angles.femur - 90) +
          deg_to_rad (180 - angles.tibia) - Real.pi)) *
        Real.cos (deg_to_rad (angles.coxa - 90)))
    linarith
  · rw [solve_fk_y]
    have h1 : |dims.femur_length * Real.cos (deg_to_rad (angles.femur - 90)) +
        dims.tibia_length * Real.cos (deg_to_rad (angles.femur - 90) +
          deg_to_rad (180 - angles.tibia) - Real.pi)| ≤
        |dims.femur_length| + |dims.tibia_length| :=
      le_trans (abs_add _ _) (add_le_add (abs_mul_cos_le _ _) (abs_mul_cos_le _ _))
    have h2 := abs_mul_sin_le dims.coxa_length (deg_to_rad (angles.coxa - 90))
    have h3 := abs_mul_sin_le (dims.femur_length * Real.cos (deg_to_rad (angles.femur - 90)) +
        dims.tibia_length * Real.cos (deg_to_rad (angles.femur - 90) +
          deg_to_rad (180 - angles.tibia) - Real.pi)) (deg_to_rad (angles.coxa - 90))
    have h4 := abs_add (dims.coxa_length * Real.sin (deg_to_rad (angles.coxa - 90)))
      ((dims.femur_length * Real.cos (deg_to_rad (angles.femur - 90)) +
        dims.tibia_length * Real.cos (deg_to_rad (angles.femur - 90) +
          deg_to_rad (180 - angles.tibia) - Real.pi)) *
        Real.sin (deg_to_rad (angles.coxa - 90)))
    linarith
  · rw [solve_fk_z]
    have h1 := abs_mul_sin_le dims.femur_length (deg_to_rad (angles.femur - 90))
    have h2 := abs_mul_sin_le dims.tibia_length (deg_to_rad (angles.femur - 90) +
      deg_to_rad (180 - angles.tibia) - Real.pi)
    have h3 := abs_add (dims.femur_length * Real.sin (deg_to_rad (angles.femur - 90)))
      (dims.tibia_length * Real.sin (deg_to_rad (angles.femur - 90) +
        deg_to_rad (180 - angles.tibia) - Real.pi))
    linarith

/-- Claim C9: `solve_ik` does not specially reject targets whose horizontal
distance is below `coxa_length`: at the origin target `(0, 0, 0)` the
horizontal reach is negative, the reach distance still evaluates to
`coxa_length`, and `solve_ik` succeeds exactly when `coxa_length` lies
between `min_reach` and `max_reach`. -/
theorem solve_ik_origin (dims : LegDimensions) (hc : 0 < dims.coxa_length) :
    horizontal_reach ⟨0, 0, 0⟩ dims < 0 ∧
    reach_distance ⟨0, 0, 0⟩ dims = dims.coxa_length ∧
    ((∃ a, solve_ik ⟨0, 0, 0⟩ dims = Except.ok a) ↔
      (min_reach dims ≤ dims.coxa_length ∧ dims.coxa_length ≤ max_reach dims)) := by
  have exy : xy_distance ⟨0, 0, 0⟩ = 0 := by
    show Real.sqrt ((0:ℝ) * 0 + 0 * 0) = 0
    rw [show (0:ℝ) * 0 + 0 * 0 = 0 from by ring, Real.sqrt_zero]
  have ehr : horizontal_reach ⟨0, 0, 0⟩ dims = -dims.coxa_length := by
    unfold horizontal_reach
    rw [exy]
    ring
  have erd : reach_distance ⟨0, 0, 0⟩ dims = dims.coxa_length := by
    unfold reach_distance
    rw [ehr, show vertical_reach ⟨0, 0, 0⟩ = (0:ℝ) from rfl,
      show -dims.coxa_length * -dims.coxa_length + (0:ℝ) * 0 =
        dims.coxa_length * dims.coxa_length from by ring,
      Real.sqrt_mul_self hc.le]
  refine ⟨by rw [ehr]; linarith, erd, ?_⟩
  unfold solve_ik
  rw [erd]
  split_ifs with h1 h2
  · apply iff_of_false
    · rintro ⟨a, ha⟩
      exact ha
    · rintro ⟨h3, h4⟩
      exact absurd h1 (not_lt.mpr h4)
  · apply iff_of_false
    · rintro ⟨a, ha⟩
      exact ha
    · rintro ⟨h3, h4⟩
      exact absurd h2 (not_lt.mpr h3)
  · exact iff_of_true ⟨_, rfl⟩ ⟨not_lt.mp h2, not_lt.mp h1⟩

/-- Witness for claim C9 with dims 30/50/50: the origin target succeeds since
`0 ≤ 30 ≤ 100`. -/
theorem solve_ik_origin_witness :
    (0:ℝ) < 30 ∧
    (horizontal_reach ⟨0, 0, 0⟩ ⟨30, 50, 50⟩ < 0 ∧
     reach_distance ⟨0, 0, 0⟩ ⟨30, 50, 50⟩ = 30 ∧
     ((∃ a, solve_ik ⟨0, 0, 0⟩ ⟨30, 50, 50⟩ = Except.ok a) ↔
       (min_reach ⟨30, 50, 50⟩ ≤ 30 ∧ (30:ℝ) ≤ max_reach ⟨30, 50, 50⟩))) :=
  ⟨by norm_num, solve_ik_origin ⟨30, 50, 50⟩ (by norm_num)⟩

/-- Claim C10: for nonnegative femur and tibia lengths, the vertical
coordinate produced by `solve_fk` never exceeds the total extension
`femur_length + tibia_length` in absolute value. -/
theorem solve_fk_z_bounded (angles : JointAngles) (dims : LegDimensions)
    (hf : 0 ≤ dims.femur_length) (ht : 0 ≤ dims.tibia_length) :
    |(solve_fk angles dims).z| ≤ dims.femur_length + dims.tibia_length := by
  rw [solve_fk_z]
  have h1 := abs_mul_sin_le dims.femur_length (deg_to_rad (angles.femur - 90))
  have h2 := abs_mul_sin_le dims.tibia_length (deg_to_rad (angles.femur - 90) +
    deg_to_rad (180 - angles.tibia) - Real.pi)
  have h3 := abs_add (dims.femur_length * Real.sin (deg_to_rad (angles.femur - 90)))
    (dims.tibia_length * Real.sin (deg_to_rad (angles.femur - 90) +
      deg_to_rad (180 - angles.tibia) - Real.pi))
  rw [abs_of_nonneg hf] at h1
  rw [abs_of_nonneg ht] at h2
  linarith

/-- Witness for claim C10 at angles `(90, 90, 0)` with dims 30/50/50. -/
theorem solve_fk_z_bounded_witness :
    (0:ℝ) ≤ 50 ∧ |(solve_fk ⟨90, 90, 0⟩ ⟨30, 50, 50⟩).z| ≤ (50:ℝ) + 50 :=
  ⟨by norm_num, solve_fk_z_bounded ⟨90, 90, 0⟩ ⟨30, 50, 50⟩ (by norm_num) (by norm_num)⟩

/-- Claim C8: for dims 20/60/80 and target `(100, 0, 0)`, `solve_ik` succeeds,
the returned coxa angle is (exactly, hence approximately) 90 degrees, and the
returned femur and tibia angles lie within `[0, 180]`. -/
theorem solve_ik_concrete_scenario :
    ∃ a, solve_ik ⟨100, 0, 0⟩ ⟨20, 60, 80⟩ = Except.ok a ∧
      a.coxa = 90 ∧ 0 ≤ a.femur ∧ a.femur ≤ 180 ∧ 0 ≤ a.tibia ∧ a.tibia ≤ 180 := by
  refine ⟨_, solve_ik_100, rfl, ?_, ?_, ?_, ?_⟩
  · exact clamp_angle_nonneg _
  · exact clamp_angle_le_180 _
  · exact clamp_angle_nonneg _
  · exact clamp_angle_le_180 _

/-- Claim C1: whenever `solve_ik` succeeds on a non-degenerate target
(`reach_distance > 0`), the dims are positive, and none of the three final
servo clamps to `[0, 180]` altered the solved angles (each pre-clamp value
already lies in `[0, 180]`), applying `solve_fk` to the returned angles
reproduces the target within the spec's 1e-3 tolerance — in fact exactly. -/
theorem solve_ik_fk_round_trip (target : Position3D) (dims : LegDimensions) (a : JointAngles)
    (hc : 0 < dims.coxa_length) (hf : 0 < dims.femur_length) (ht : 0 < dims.tibia_length)
    (hrpos : 0 < reach_distance target dims)
    (hok : solve_ik target dims = Except.ok a)
    (hc1 : 0 ≤ rad_to_deg (atan2 target.y target.x) + 90)
    (hc2 : rad_to_deg (atan2 target.y target.x) + 90 ≤ 180)
    (hg1 : 0 ≤ rad_to_deg (femur_angle_rad target dims) + 90)
    (hg2 : rad_to_deg (femur_angle_rad target dims) + 90 ≤ 180)
    (ht1 : 0 ≤ 180 - rad_to_deg (tibia_angle_rad target dims))
    (ht2 : 180 - rad_to_deg (tibia_angle_rad target dims) ≤ 180) :
    |(solve_fk a dims).x - target.x| ≤ 1 / 1000 ∧
    |(solve_fk a dims).y - target.y| ≤ 1 / 1000 ∧
    |(solve_fk a dims).z - target.z| ≤ 1 / 1000 := by
  have h := solve_fk_solve_ik_exact target dims a hf ht hrpos hok hc1 hc2 hg1 hg2 ht1 ht2
  rw [h]
  norm_num

/-- Witness for claim C1 at the boundary target `(130, 0, 0)` with dims
30/50/50, whose solved angles `(90, 90, 0)` are untouched by the clamp. -/
theorem solve_ik_fk_round_trip_witness :
    (0:ℝ) < 30 ∧ (0:ℝ) < 50 ∧
    0 < reach_distance ⟨130, 0, 0⟩ ⟨30, 50, 50⟩ ∧
    solve_ik ⟨130, 0, 0⟩ ⟨30, 50, 50⟩ = Except.ok ⟨90, 90, 0⟩ ∧
    0 ≤ rad_to_deg (atan2 0 130) + 90 ∧ rad_to_deg (atan2 0 130) + 90 ≤ 180 ∧
    0 ≤ rad_to_deg (femur_angle_rad ⟨130, 0, 0⟩ ⟨30, 50, 50⟩) + 90 ∧
    rad_to_deg (femur_angle_rad ⟨130, 0, 0⟩ ⟨30, 50, 50⟩) + 90 ≤ 180 ∧
    0 ≤ 180 - rad_to_deg (tibia_angle_rad ⟨130, 0, 0⟩ ⟨30, 50, 50⟩) ∧
    180 - rad_to_deg (tibia_angle_rad ⟨130, 0, 0⟩ ⟨30, 50, 50⟩) ≤ 180 ∧
    (|(solve_fk ⟨90, 90, 0⟩ ⟨30, 50, 50⟩).x - 130| ≤ 1 / 1000 ∧
     |(solve_fk ⟨90, 90, 0⟩ ⟨30, 50, 50⟩).y - 0| ≤ 1 / 1000 ∧
     |(solve_fk ⟨90, 90, 0⟩ ⟨30, 50, 50⟩).z - 0| ≤ 1 / 1000) := by
  have hr : (0:ℝ) < reach_distance ⟨130, 0, 0⟩ ⟨30, 50, 50⟩ := by
    rw [reach_130]
    norm_num
  have ecx : rad_to_deg (atan2 (0:ℝ) 130) = 0 := by
    rw [atan2_zero_of_pos (by norm_num : (0:ℝ) < 130)]
    exact rad_to_deg_zero
  have efem : rad_to_deg (femur_angle_rad ⟨130, 0, 0⟩ ⟨30, 50, 50⟩) = 0 := by
    rw [femur_angle_130]
    exact rad_to_deg_zero
  have etib : rad_to_deg (tibia_angle_rad ⟨130, 0, 0⟩ ⟨30, 50, 50⟩) = 180 := by
    rw [tibia_angle_130]
    exact rad_to_deg_pi
  refine ⟨by norm_num, by norm_num, hr, solve_ik_130,
    by rw [ecx]; norm_num, by rw [ecx]; norm_num,
    by rw [efem]; norm_num, by rw [efem]; norm_num,
    by rw [etib]; norm_num, by rw [etib]; norm_num,
    solve_ik_fk_round_trip ⟨130, 0, 0⟩ ⟨30, 50, 50⟩ ⟨90, 90, 0⟩
      (by norm_num) (by norm_num) (by norm_num) hr solve_ik_130
      (by show (0:ℝ) ≤ rad_to_deg (atan2 0 130) + 90; rw [ecx]; norm_num)
      (by show rad_to_deg (atan2 (0:ℝ) 130) + 90 ≤ 180; rw [ecx]; norm_num)
      (by rw [efem]; norm_num) (by rw [efem]; norm_num)
      (by rw [etib]; norm_num) (by rw [etib]; norm_num)⟩

end IK
